import Mathlib

set_option maxHeartbeats 1000000

namespace GHAnalytics

/-- JSON-like value model for the Python data flowing through blocks.py:
Python None, bool, int, str, list and dict (string keys, insertion order).
JSON floats are not modelled; no verified code path depends on them. -/
inductive JVal where
  | null : JVal
  | bool : Bool → JVal
  | int : Int → JVal
  | str : String → JVal
  | arr : List JVal → JVal
  | obj : List (String × JVal) → JVal

/-- Python type name of a value, as used in TypeError or AttributeError messages. -/
def pyTypeName : JVal → String
  | .null => "NoneType"
  | .bool _ => "bool"
  | .int _ => "int"
  | .str _ => "str"
  | .arr _ => "list"
  | .obj _ => "dict"

/-- Python truthiness of a value. -/
def truthy : JVal → Bool
  | .null => false
  | .bool b => b
  | .int n => n != 0
  | .str s => s != ""
  | .arr xs => !xs.isEmpty
  | .obj kvs => !kvs.isEmpty

/-- Whether a value is a Python dict (isinstance(v, dict)). -/
def isObj : JVal → Bool
  | .obj _ => true
  | _ => false

/-- Whether a value is a Python list (isinstance(v, list)). -/
def isArr : JVal → Bool
  | .arr _ => true
  | _ => false

/-- First binding of a key in an association list.  The dicts the program
builds have unique keys, so this is Python dict lookup. -/
def lookupKV : List (String × JVal) → String → Option JVal
  | [], _ => none
  | (k1, v) :: rest, k => if k1 = k then some v else lookupKV rest k

/-- Python d.get(k) on a dict: None when the key is absent.  Call sites in the
source either know the receiver is a dict or guard with isinstance. -/
def jget (j : JVal) (k : String) : JVal :=
  match j with
  | .obj kvs => (lookupKV kvs k).getD .null
  | _ => .null

/-- Replace the first binding of a key, or append a new binding at the end:
Python dict item assignment on our association-list dicts. -/
def setKV : List (String × JVal) → String → JVal → List (String × JVal)
  | [], k, v => [(k, v)]
  | (k1, v1) :: rest, k, v =>
      if k1 = k then (k, v) :: rest else (k1, v1) :: setKV rest k v

/-- Python dict item assignment d[k] = v (the source only assigns into dicts). -/
def jset (j : JVal) (k : String) (v : JVal) : JVal :=
  match j with
  | .obj kvs => .obj (setKV kvs k v)
  | _ => j

/-- The apostrophe character, used by Python error messages and repr. -/
def sq : String := String.singleton (Char.ofNat 39)

/-- Python TypeError message raised when iterating a non-iterable value. -/
def notIterableMsg (v : JVal) : String :=
  sq ++ pyTypeName v ++ sq ++ " object is not iterable"

/-- Python AttributeError message raised by v.get(...) on a non-dict value. -/
def noGetMsg (v : JVal) : String :=
  sq ++ pyTypeName v ++ sq ++ " object has no attribute " ++ sq ++ "get" ++ sq

/-- Python iteration (for x in v).  Lists yield elements, dicts yield their
keys, strings yield one-character strings; numbers and booleans raise
TypeError; None is never iterated by the source (falsy values are replaced
by [] first). -/
def pyIterList : JVal → Except String (List JVal)
  | .arr xs => .ok xs
  | .obj kvs => .ok (kvs.map fun kv => .str kv.1)
  | .str s => .ok (s.toList.map fun c => .str (String.singleton c))
  | v => .error (notIterableMsg v)

/-- Characters Python str.strip() removes. -/
def isPySpace (c : Char) : Bool :=
  c = ' ' || c = '\t' || c = '\n' || c = '\r' || c = '\x0b' || c = '\x0c'

/-- Python s.strip() (no arguments): trim surrounding whitespace. -/
def pyStrip (s : String) : String :=
  String.mk (((s.toList.dropWhile isPySpace).reverse.dropWhile isPySpace).reverse)

/-- Python s.strip(chars) restricted to the single character uses in the
source. -/
def pyStripChar (s : String) (c : Char) : String :=
  String.mk (((s.toList.dropWhile (· = c)).reverse.dropWhile (· = c)).reverse)

/-- Python s.split(sep) for a one-character separator: the segments between
occurrences, keeping empty segments (so the empty string gives one empty
segment). -/
def splitOnChar (c : Char) : List Char → List (List Char)
  | [] => [[]]
  | x :: xs =>
    let r := splitOnChar c xs
    if x = c then [] :: r
    else
      match r with
      | [] => [[x]]
      | g :: gs => (x :: g) :: gs

/-- Python s.replace(old, new): replace non-overlapping occurrences left to
right.  The fuel argument (instantiated with the length of the subject, an
upper bound on the number of steps) keeps the recursion structural. -/
def replaceListAux (pat rep : List Char) : Nat → List Char → List Char
  | _, [] => []
  | 0, s => s
  | fuel + 1, c :: rest =>
    if pat.isPrefixOf (c :: rest) && !pat.isEmpty then
      rep ++ replaceListAux pat rep fuel ((c :: rest).drop pat.length)
    else c :: replaceListAux pat rep fuel rest

/-- Python s.replace(old, new) on strings. -/
def replaceStr (s pat rep : String) : String :=
  String.mk (replaceListAux pat.toList rep.toList s.toList.length s.toList)

/-- Decimal value of a list of ASCII digits. -/
def digitsToNat (ds : List Char) : Nat :=
  ds.foldl (fun n c => 10 * n + (c.toNat - 48)) 0

/-- Python int(s) on a string: optional surrounding whitespace, optional
sign, one or more digits (modelled as ASCII digits; underscore separators
are not modelled). -/
def pyStrToInt (s : String) : Option Int :=
  let t := (pyStrip s).toList
  let signAndDigits : Int × List Char :=
    match t with
    | '-' :: r => (-1, r)
    | '+' :: r => (1, r)
    | r => (1, r)
  let ds := signAndDigits.2
  if !ds.isEmpty && ds.all Char.isDigit then
    some (signAndDigits.1 * (digitsToNat ds : Int))
  else
    none

/-- Python int(v) for the value kinds in our model: ints are themselves,
booleans are 0 or 1, strings parse as integers, everything else raises. -/
def pyToInt : JVal → Option Int
  | .int n => some n
  | .bool b => some (if b then 1 else 0)
  | .str s => pyStrToInt s
  | _ => none

/-- blocks.py _clamp_int (lines 48-57): best-effort int conversion with the
given default, then clamping into [lo, hi]. -/
def clamp_int (v : JVal) (lo hi default : Int) : Int :=
  match pyToInt v with
  | none => default
  | some x => if x < lo then lo else if x > hi then hi else x

mutual
/-- Python repr(v): containers render the repr of their parts (string
escaping inside repr is not modelled; no claim depends on it). -/
def pyRepr : JVal → String
  | .null => "None"
  | .bool b => if b then "True" else "False"
  | .int n => toString n
  | .str s => sq ++ s ++ sq
  | .arr xs => "[" ++ String.intercalate ", " (pyReprList xs) ++ "]"
  | .obj kvs =>
      String.singleton (Char.ofNat 123)
        ++ String.intercalate ", " (pyReprKVs kvs)
        ++ String.singleton (Char.ofNat 125)
/-- Reprs of the elements of a list value. -/
def pyReprList : List JVal → List String
  | [] => []
  | x :: xs => pyRepr x :: pyReprList xs
/-- Reprs of the key-value pairs of a dict value. -/
def pyReprKVs : List (String × JVal) → List String
  | [] => []
  | (k, v) :: kvs => (sq ++ k ++ sq ++ ": " ++ pyRepr v) :: pyReprKVs kvs
end

/-- Python str(v): strings unquoted, everything else via repr. -/
def jstr : JVal → String
  | .str s => s
  | v => pyRepr v

/-- blocks.py _safe_str (lines 43-46) applied to a string: replace carriage
returns and newlines by spaces, then truncate to n characters. -/
def safe_strS (s : String) (n : Nat) : String :=
  let t := s.toList.map fun c => if c = '\r' || c = '\n' then ' ' else c
  if t.length ≤ n then String.mk t else String.mk (t.take n)

/-- blocks.py _safe_str (lines 43-46): empty for None, else str(v), with
newline removal and truncation. -/
def safe_str (v : JVal) (n : Nat) : String :=
  match v with
  | .null => safe_strS "" n
  | _ => safe_strS (jstr v) n

/-- Sum of the clamped counts over the dict entries of a traffic series
(blocks.py lines 89-92): non-dict entries are skipped. -/
def trafficSeriesSum (its : List JVal) : Int :=
  its.foldl
    (fun s it =>
      if isObj it then s + clamp_int (jget it "count") 0 2000000000 0 else s) 0

/-- blocks.py _traffic_total_from_series (lines 76-95): clamp the reported
count; when the series entry is a non-empty list, return the max of that and
the summed per-entry clamped counts; non-dict responses give 0. -/
def traffic_total_from_series (resp : JVal) (series_key : String) : Int :=
  match resp with
  | .obj _ =>
    let base := clamp_int (jget resp "count") 0 2000000000 0
    (match jget resp series_key with
     | .arr its => if its.isEmpty then base else max base (trafficSeriesSum its)
     | _ => base)
  | _ => 0

/-- The Link header split into stripped, non-empty comma-separated parts
(blocks.py line 27). -/
def linkParts (h : String) : List String :=
  (((splitOnChar ',' h.toList).map fun cs => pyStrip (String.mk cs)).filter
    fun p => p != "")

/-- Substring test on character lists. -/
def containsSub (pat : List Char) : List Char → Bool
  | [] => pat.isEmpty
  | c :: t => pat.isPrefixOf (c :: t) || containsSub pat t

/-- The regex search _LINK_LAST_RE.search(p) (blocks.py line 16):
case-insensitive containment of the marker text. -/
def hasRelLast (p : String) : Bool :=
  containsSub ("rel=\"last\"".toList) (p.toList.map Char.toLower)

/-- The regex search _LINK_PAGE_RE.search(p) (blocks.py line 17): leftmost
occurrence of a question mark or ampersand followed by the page key and one
or more digits; returns the maximal digit run. -/
def findPageDigits : List Char → Option (List Char)
  | [] => none
  | c :: rest =>
    if (c = '?' || c = '&') && ("page=".toList.isPrefixOf rest) then
      (let ds := (rest.drop 5).takeWhile Char.isDigit
       if ds.isEmpty then findPageDigits rest else some ds)
    else findPageDigits rest

/-- The page number carried by a link part, when the page regex matches. -/
def pagePar (p : String) : Option Int :=
  (findPageDigits p.toList).map fun ds => (digitsToNat ds : Int)

/-- The for-loop of blocks.py lines 28-36: first part marked rel last whose
page parameter parses wins; parts without a parsable page are skipped. -/
def scanParts : List String → Option Int
  | [] => none
  | p :: rest =>
    if hasRelLast p then
      match pagePar p with
      | some n => some n
      | none => scanParts rest
    else scanParts rest

/-- blocks.py _parse_link_last_page (lines 20-36). -/
def parse_link_last_page (link_header : String) : Option Int :=
  if link_header = "" then none else scanParts (linkParts link_header)

/-- A failed HTTP exchange, as distinguished by GitHubClient (blocks.py
lines 161-168): an HTTP error status with a body, or any other transport,
decode or timeout failure with a message. -/
inductive NetFail where
  | http : Int → String → NetFail
  | transport : String → NetFail

/-- Response headers as a mapping (blocks.py line 159). -/
def Headers := List (String × String)

/-- Header lookup (dict.get on the headers mapping). -/
def hdrGet (hs : Headers) (k : String) : Option String :=
  match hs with
  | [] => none
  | (k1, v) :: rest => if k1 = k then some v else hdrGet rest k

/-- The mocked remote API: a fixed mapping from request URL to either a
parsed JSON body plus response headers, or a failure.  This stands for the
network side of GitHubClient; the token only selects which requests the
block issues, so it does not appear here. -/
structure Api where
  call : String → Except NetFail (JVal × List (String × String))

/-- The RuntimeError message GitHubClient raises for a failed request
(blocks.py lines 161-168). -/
def failMsg (url : String) : NetFail → String
  | .http code body =>
      "GitHub API HTTP " ++ toString code ++ ": " ++ url ++ "\n"
        ++ (if body.length ≤ 4000 then body else body.take 4000)
  | .transport m => "GitHub API error: " ++ url ++ "\n" ++ m

/-- GitHubClient.get_json_with_headers (blocks.py lines 154-168): the parsed
body and headers, or a RuntimeError whose message is failMsg. -/
def get_json_with_headers (api : Api) (url : String) :
    Except String (JVal × List (String × String)) :=
  match api.call url with
  | .ok r => .ok r
  | .error f => .error (failMsg url f)

/-- GitHubClient.get_json (blocks.py lines 150-152): get_json_with_headers
without the headers. -/
def get_json (api : Api) (url : String) : Except String JVal :=
  (get_json_with_headers api url).map Prod.fst

/-- blocks.py parse_repo_slug (lines 172-184). -/
def parse_repo_slug (s : String) : Option (String × String) :=
  let s1 := pyStrip s
  if s1 = "" then none
  else
    let s2 := pyStripChar (replaceStr s1 "https://github.com/" "") '/'
    if !s2.toList.contains '/' then none
    else
      let owner := pyStrip (String.mk (s2.toList.takeWhile (· ≠ '/')))
      let name := pyStrip (String.mk ((s2.toList.dropWhile (· ≠ '/')).tail))
      if owner = "" || name = "" then none else some (owner, name)

/-- URL of a releases page (blocks.py line 285). -/
def relPageUrl (repo_url : String) (page : Nat) : String :=
  repo_url ++ "/releases?per_page=100&page=" ++ toString page

/-- The releases paging loop of blocks.py lines 282-294, together with the
trace of page numbers it requested.  rem encodes the page > 20 safety break:
it equals 20 - page throughout, so rem = 0 exactly when the incremented page
would exceed 20.  The loop keeps the dict entries of each chunk, stops on a
non-list or empty chunk, stops after a short chunk, and a failed request
escapes to the per-slug handler. -/
def relLoop (api : Api) (repo_url : String) :
    Nat → Nat → (Except String (List JVal)) × List Nat
  | page, rem =>
    match get_json api (relPageUrl repo_url page) with
    | .error e => (.error e, [page])
    | .ok chunk =>
      match chunk with
      | .arr xs =>
        if xs.isEmpty then (.ok [], [page])
        else
          let keep := xs.filter fun x => isObj x
          if xs.length < 100 then (.ok keep, [page])
          else
            match rem with
            | 0 => (.ok keep, [page])
            | rem1 + 1 =>
              let next := relLoop api repo_url (page + 1) rem1
              match next.1 with
              | .error e => (.error e, page :: next.2)
              | .ok rest => (.ok (keep ++ rest), page :: next.2)
      | _ => (.ok [], [page])

/-- One release row of the per_release list (blocks.py lines 305-311). -/
structure ReleaseSummary where
  tag : String
  name : String
  published_at : String
  assets_count : Int
  assets_downloads : Int

/-- The assets of a release as resolved at blocks.py line 299 (falsy
becomes []). -/
def assetsOf (rel : JVal) : JVal :=
  let v := jget rel "assets"
  if truthy v then v else .arr []

/-- The clamped download-count sum over the iterated assets of one release
(blocks.py lines 300-303): non-dict items contribute nothing. -/
def assetsDownloadSum (assets : List JVal) : Int :=
  assets.foldl
    (fun acc a =>
      if isObj a then acc + clamp_int (jget a "download_count") 0 2000000000 0
      else acc) 0

/-- One row of the per_release list (blocks.py lines 305-311). -/
def relRow (rel : JVal) (rel_sum : Int) : ReleaseSummary :=
  { tag := safe_str (let v := jget rel "tag_name"; if truthy v then v else .str "") 128
    name := safe_str (let v := jget rel "name"; if truthy v then v else .str "") 256
    published_at :=
      safe_str (let v := jget rel "published_at"; if truthy v then v else .str "") 64
    assets_count := match assetsOf rel with | .arr xs => (xs.length : Int) | _ => 0
    assets_downloads := rel_sum }

/-- The per-release summarisation loop of blocks.py lines 296-311: resolves
the assets of each release, iterates them (a truthy non-iterable raises,
aborting the slug), sums clamped download counts, and accumulates the grand
total. -/
def relSummaries : List JVal → Except String (Int × List ReleaseSummary)
  | [] => .ok (0, [])
  | rel :: rest =>
    match pyIterList (assetsOf rel) with
    | .error e => .error e
    | .ok assets =>
      let rel_sum := assetsDownloadSum assets
      match relSummaries rest with
      | .error e => .error e
      | .ok (tot, rows) => .ok (rel_sum + tot, relRow rel rel_sum :: rows)

/-- The traffic sub-calls of blocks.py lines 316-329: four endpoints tried
independently; successes populate the traffic dict, failures are collected
into the joined and stripped warning string. -/
def fetchTraffic (api : Api) (repo_url : String) : JVal × String :=
  let step := fun (acc : List (String × JVal) × List String) (ke : String × String) =>
    match get_json api ke.2 with
    | .ok v => (acc.1 ++ [(ke.1, v)], acc.2)
    | .error e => (acc.1, acc.2 ++ [ke.1 ++ ": " ++ safe_strS e 800])
  let endpoints : List (String × String) :=
    [("views", repo_url ++ "/traffic/views?per=day"),
     ("clones", repo_url ++ "/traffic/clones?per=day"),
     ("referrers", repo_url ++ "/traffic/popular/referrers"),
     ("paths", repo_url ++ "/traffic/popular/paths")]
  let built := endpoints.foldl step ([], [])
  (.obj built.1, pyStrip (String.intercalate "\n" built.2))

/-- One RepoAnalytics record as appended at blocks.py lines 331-358. -/
structure RepoRecord where
  repo : String
  html_url : String
  default_branch : String
  pushed_at : String
  updated_at : String
  created_at : String
  commits_total : Int
  commits_error : String
  views_14d_total : Int
  clones_14d_total : Int
  stars : Int
  forks : Int
  watchers : Int
  open_issues : Int
  size_kb : Int
  language : String
  languages : JVal
  releases_count : Int
  release_asset_downloads_total : Int
  releases : List ReleaseSummary
  traffic : JVal
  traffic_error : String

/-- Field of the record read from the metadata dict through
(repo.get(key) or "") and _safe_str. -/
def strField (repo : JVal) (k : String) (n : Nat) : String :=
  safe_str (let v := jget repo k; if truthy v then v else .str "") n

/-- Metadata URL of a repository (blocks.py line 255). -/
def repoUrlOf (owner name : String) : String :=
  "https://api.github.com/repos/" ++ owner ++ "/" ++ name

/-- The commits-total computation of blocks.py lines 257-273: a failed call
is absorbed into a zero total and a warning message; a list body takes the
last-page number of the Link header, defaulting to the body length. -/
def commitsOf (api : Api) (repo_url : String) : Int × String :=
  match get_json_with_headers api (repo_url ++ "/commits?per_page=1") with
  | .error e => (0, safe_strS e 1200)
  | .ok (cj, headers) =>
    match cj with
    | .arr xs =>
      let link :=
        let a := (hdrGet headers "Link").getD ""
        if a ≠ "" then a else (hdrGet headers "link").getD ""
      match parse_link_last_page link with
      | some lp => (lp, "")
      | none => ((xs.length : Int), "")
    | _ => (0, "")

/-- The body of the per-slug try block of GitHubFetchBlock.execute
(blocks.py lines 254-358) for an already-parsed slug: metadata fetch (a
failure aborts the slug), absorbed commits-count fetch, absorbed languages
fetch, releases paging (a failure aborts the slug), release summarisation
(a TypeError aborts the slug), token-gated traffic fetch, then record
assembly (metadata that is not a dict raises AttributeError on .get,
aborting the slug). -/
def fetchOne (api : Api) (token owner name : String) : Except String RepoRecord :=
  let repo_url := repoUrlOf owner name
  match get_json api repo_url with
  | .error e => .error e
  | .ok repo =>
    let commits : Int × String := commitsOf api repo_url
    let langs : JVal :=
      match get_json api (repo_url ++ "/languages") with
      | .ok l => l
      | .error _ => .obj []
    match (relLoop api repo_url 1 19).1 with
    | .error e => .error e
    | .ok rels =>
      match relSummaries rels with
      | .error e => .error e
      | .ok (total_asset_downloads, per_release) =>
        let tr : JVal × String :=
          if token ≠ "" then fetchTraffic api repo_url else (.obj [], "")
        match repo with
        | .obj _ =>
          .ok
            { repo := owner ++ "/" ++ name
              html_url := strField repo "html_url" 256
              default_branch := strField repo "default_branch" 128
              pushed_at := strField repo "pushed_at" 64
              updated_at := strField repo "updated_at" 64
              created_at := strField repo "created_at" 64
              commits_total := commits.1
              commits_error := commits.2
              views_14d_total :=
                if truthy tr.1 then traffic_total_from_series (jget tr.1 "views") "views"
                else 0
              clones_14d_total :=
                if truthy tr.1 then traffic_total_from_series (jget tr.1 "clones") "clones"
                else 0
              stars := clamp_int (jget repo "stargazers_count") 0 2000000000 0
              forks := clamp_int (jget repo "forks_count") 0 2000000000 0
              watchers := clamp_int (jget repo "subscribers_count") 0 2000000000 0
              open_issues := clamp_int (jget repo "open_issues_count") 0 2000000000 0
              size_kb := clamp_int (jget repo "size") 0 2000000000 0
              language := strField repo "language" 64
              languages := if isObj langs then langs else .obj []
              releases_count := (rels.length : Int)
              release_asset_downloads_total := total_asset_downloads
              releases := per_release
              traffic := tr.1
              traffic_error := tr.2 }
        | _ => .error (noGetMsg repo)

/-- The for-loop of GitHubFetchBlock.execute (blocks.py lines 246-363):
each input element either fails slug parsing (error under the raw string),
or is fetched, appending one success record or one error entry under the
parsed slug. -/
def fetchLoop (api : Api) (token : String) :
    List JVal → List RepoRecord × List (String × String)
  | [] => ([], [])
  | r :: rest =>
    let tail := fetchLoop api token rest
    match parse_repo_slug (jstr r) with
    | none => (tail.1, (jstr r, "invalid_repo_slug") :: tail.2)
    | some (owner, name) =>
      match fetchOne api token owner name with
      | .ok rec => (rec :: tail.1, tail.2)
      | .error e => (tail.1, (owner ++ "/" ++ name, safe_strS e 4000) :: tail.2)

/-- Output of the fetch block (blocks.py line 243): timestamp, success
records and error entries. -/
structure FetchOut where
  generated_at : Int
  repos : List RepoRecord
  errors : List (String × String)

/-- The repos value GitHubFetchBlock.execute iterates (blocks.py
lines 233-234): non-dict payloads count as empty, a falsy repos value
becomes [].  The block is modelled with the token already resolved
(lines 235-241 pick params over payload over environment; the claims
quantify over the resolved token) and the now_ts() timestamp passed in. -/
def fetchReposIn (payload : JVal) : JVal :=
  let p := if isObj payload then payload else .obj []
  let v := jget p "repos"
  if truthy v then v else .arr []

/-- GitHubFetchBlock.execute continued: iterate the resolved repos value
(raising TypeError on a truthy non-iterable) and run the per-slug loop. -/
def fetchExec (api : Api) (token : String) (payload : JVal) (now : Int) :
    Except String FetchOut :=
  match pyIterList (fetchReposIn payload) with
  | .error e => .error e
  | .ok rs =>
    let outp := fetchLoop api token rs
    .ok { generated_at := now, repos := outp.1, errors := outp.2 }

/-- The totals accumulator of GitHubAggregateBlock.execute (blocks.py
lines 379-391), with its eleven counters. -/
structure Totals where
  repos : Int
  stars : Int
  forks : Int
  watchers : Int
  open_issues : Int
  release_asset_downloads_total : Int
  views_14d_total : Int
  views_14d_unique : Int
  clones_14d_total : Int
  clones_14d_unique : Int
  commits_total : Int

/-- The zero-initialised totals dict (blocks.py lines 379-391). -/
def initTotals : Totals :=
  { repos := 0, stars := 0, forks := 0, watchers := 0, open_issues := 0
    release_asset_downloads_total := 0, views_14d_total := 0, views_14d_unique := 0
    clones_14d_total := 0, clones_14d_unique := 0, commits_total := 0 }

/-- The traffic local of the aggregation loop (blocks.py line 403): the
record's traffic value when it is a dict, else an empty dict. -/
def trafficDictOf (r : JVal) : JVal :=
  if isObj (jget r "traffic") then jget r "traffic" else .obj []

/-- The views local of the aggregation loop (blocks.py line 404). -/
def viewsDictOf (r : JVal) : JVal :=
  if isObj (jget (trafficDictOf r) "views") then jget (trafficDictOf r) "views" else .obj []

/-- The clones local of the aggregation loop (blocks.py line 405). -/
def clonesDictOf (r : JVal) : JVal :=
  if isObj (jget (trafficDictOf r) "clones") then jget (trafficDictOf r) "clones" else .obj []

/-- One iteration of the aggregation loop (blocks.py lines 393-411):
non-dict entries are skipped; numeric fields come through _clamp_int; the
views and clones figures are read from the traffic sub-dicts of the record,
falling back to empty dicts when absent or not dicts. -/
def totalsStep (t : Totals) (r : JVal) : Totals :=
  match r with
  | .obj _ =>
    let views := viewsDictOf r
    let clones := clonesDictOf r
    { repos := t.repos + 1
      stars := t.stars + clamp_int (jget r "stars") 0 2000000000 0
      forks := t.forks + clamp_int (jget r "forks") 0 2000000000 0
      watchers := t.watchers + clamp_int (jget r "watchers") 0 2000000000 0
      open_issues := t.open_issues + clamp_int (jget r "open_issues") 0 2000000000 0
      release_asset_downloads_total :=
        t.release_asset_downloads_total
          + clamp_int (jget r "release_asset_downloads_total") 0 2000000000 0
      views_14d_total := t.views_14d_total + clamp_int (jget views "count") 0 2000000000 0
      views_14d_unique := t.views_14d_unique + clamp_int (jget views "uniques") 0 2000000000 0
      clones_14d_total := t.clones_14d_total + clamp_int (jget clones "count") 0 2000000000 0
      clones_14d_unique :=
        t.clones_14d_unique + clamp_int (jget clones "uniques") 0 2000000000 0
      commits_total := t.commits_total + clamp_int (jget r "commits_total") 0 2000000000 0 }
  | _ => t

/-- The totals dict rendered with its eleven keys in source order
(blocks.py lines 379-391). -/
def totalsToJVal (t : Totals) : JVal :=
  .obj
    [("repos", .int t.repos), ("stars", .int t.stars), ("forks", .int t.forks),
     ("watchers", .int t.watchers), ("open_issues", .int t.open_issues),
     ("release_asset_downloads_total", .int t.release_asset_downloads_total),
     ("views_14d_total", .int t.views_14d_total),
     ("views_14d_unique", .int t.views_14d_unique),
     ("clones_14d_total", .int t.clones_14d_total),
     ("clones_14d_unique", .int t.clones_14d_unique),
     ("commits_total", .int t.commits_total)]

/-- The repos value the aggregate block iterates (blocks.py line 378):
non-dict payloads count as empty, a falsy repos value becomes []. -/
def aggRepos (payload : JVal) : JVal :=
  let p := if isObj payload then payload else .obj []
  let v := jget p "repos"
  if truthy v then v else .arr []

/-- GitHubAggregateBlock.execute (blocks.py lines 376-413): fold the totals
over the iterated repos value (iterating a truthy non-iterable raises
TypeError) and attach them under the totals key. -/
def aggregateExec (payload : JVal) : Except String JVal :=
  let p := if isObj payload then payload else .obj []
  match pyIterList (aggRepos payload) with
  | .error e => .error e
  | .ok rs => .ok (jset p "totals" (totalsToJVal (rs.foldl totalsStep initTotals)))

/-- One release row rendered as the dict appended at blocks.py
lines 305-311. -/
def relToJVal (e : ReleaseSummary) : JVal :=
  .obj
    [("tag", .str e.tag), ("name", .str e.name),
     ("published_at", .str e.published_at),
     ("assets_count", .int e.assets_count),
     ("assets_downloads", .int e.assets_downloads)]

/-- One RepoAnalytics record rendered as the dict appended at blocks.py
lines 331-358, keys in source order. -/
def recordToJVal (rec : RepoRecord) : JVal :=
  .obj
    [("repo", .str rec.repo), ("html_url", .str rec.html_url),
     ("default_branch", .str rec.default_branch),
     ("pushed_at", .str rec.pushed_at), ("updated_at", .str rec.updated_at),
     ("created_at", .str rec.created_at),
     ("commits_total", .int rec.commits_total),
     ("commits_error", .str rec.commits_error),
     ("views_14d_total", .int rec.views_14d_total),
     ("clones_14d_total", .int rec.clones_14d_total),
     ("stars", .int rec.stars), ("forks", .int rec.forks),
     ("watchers", .int rec.watchers), ("open_issues", .int rec.open_issues),
     ("size_kb", .int rec.size_kb), ("language", .str rec.language),
     ("languages", rec.languages),
     ("releases_count", .int rec.releases_count),
     ("release_asset_downloads_total", .int rec.release_asset_downloads_total),
     ("releases", .arr (rec.releases.map relToJVal)),
     ("traffic", rec.traffic), ("traffic_error", .str rec.traffic_error)]

/-- The fetch output dict (blocks.py line 243 plus the appended lists). -/
def fetchOutToJVal (o : FetchOut) : JVal :=
  .obj
    [("generated_at", .int o.generated_at),
     ("repos", .arr (o.repos.map recordToJVal)),
     ("errors", .arr (o.errors.map fun re =>
        .obj [("repo", .str re.1), ("error", .str re.2)]))]

/-- The fetch-then-aggregate pipeline on a mocked API (pipeline.py run_steps
sequencing github_fetch into github_aggregate). -/
def pipelineRun (api : Api) (token : String) (payload : JVal) (now : Int) :
    Except String JVal :=
  match fetchExec api token payload now with
  | .error e => .error e
  | .ok o => aggregateExec (fetchOutToJVal o)

/-- The clamp helper stays inside its bounds whenever the default does. -/
theorem clamp_int_bounds (v : JVal) (lo hi d : Int) (h1 : lo ≤ d) (h2 : d ≤ hi) :
    lo ≤ clamp_int v lo hi d ∧ clamp_int v lo hi d ≤ hi := by
  unfold clamp_int
  cases pyToInt v with
  | none => exact ⟨h1, h2⟩
  | some x =>
    dsimp only
    split_ifs <;> omega

/-- The summed series counts are nonnegative. -/
theorem trafficSeriesSum_nonneg (its : List JVal) : 0 ≤ trafficSeriesSum its := by
  unfold trafficSeriesSum
  suffices h : ∀ a : Int, 0 ≤ a →
      0 ≤ its.foldl
        (fun s it =>
          if isObj it then s + clamp_int (jget it "count") 0 2000000000 0 else s) a by
    exact h 0 le_rfl
  induction its with
  | nil => intro a ha; simpa using ha
  | cons it rest ih =>
    intro a ha
    simp only [List.foldl_cons]
    apply ih
    split_ifs
    · have := clamp_int_bounds (jget it "count") 0 2000000000 0 le_rfl (by norm_num)
      omega
    · exact ha

/-- The derived traffic total is nonnegative. -/
theorem traffic_total_nonneg (resp : JVal) (k : String) :
    0 ≤ traffic_total_from_series resp k := by
  have hb := clamp_int_bounds (jget resp "count") 0 2000000000 0 le_rfl (by norm_num)
  cases resp with
  | obj kvs =>
    unfold traffic_total_from_series
    cases jget (JVal.obj kvs) k with
    | arr its =>
      dsimp only
      split_ifs
      · exact hb.1
      · exact le_max_of_le_left hb.1
    | null => exact hb.1
    | bool b => exact hb.1
    | int n => exact hb.1
    | str s => exact hb.1
    | obj o => exact hb.1
  | null => exact le_rfl
  | bool b => exact le_rfl
  | int n => exact le_rfl
  | str s => exact le_rfl
  | arr xs => exact le_rfl

/-- C1: for a dict response whose series entry is a non-empty list, the
derived total is the max of the clamped reported count and the sum of the
clamped per-entry counts, hence equals the sum whenever the reported count
is smaller; a non-dict response gives 0; an absent, non-list or empty
series gives the clamped reported count. -/
theorem c1_traffic_derived_total (resp : JVal) (key : String) :
    (∀ its, isObj resp = true → jget resp key = JVal.arr its → its.isEmpty = false →
      traffic_total_from_series resp key
          = max (clamp_int (jget resp "count") 0 2000000000 0) (trafficSeriesSum its)
        ∧ (clamp_int (jget resp "count") 0 2000000000 0 < trafficSeriesSum its →
            traffic_total_from_series resp key = trafficSeriesSum its))
    ∧ (isObj resp = false → traffic_total_from_series resp key = 0)
    ∧ (isObj resp = true →
        (∀ its, jget resp key = JVal.arr its → its.isEmpty = true) →
        traffic_total_from_series resp key
          = clamp_int (jget resp "count") 0 2000000000 0) := by
  refine ⟨?_, ?_, ?_⟩
  · intro its hobj hser hne
    cases resp with
    | obj kvs =>
      constructor
      · unfold traffic_total_from_series
        simp only [hser, hne, Bool.false_eq_true, if_false]
      · intro hlt
        unfold traffic_total_from_series
        simp only [hser, hne, Bool.false_eq_true, if_false]
        exact max_eq_right (le_of_lt hlt)
    | null => simp [isObj] at hobj
    | bool b => simp [isObj] at hobj
    | int n => simp [isObj] at hobj
    | str s => simp [isObj] at hobj
    | arr xs => simp [isObj] at hobj
  · intro hobj
    cases resp with
    | obj kvs => simp [isObj] at hobj
    | null => rfl
    | bool b => rfl
    | int n => rfl
    | str s => rfl
    | arr xs => rfl
  · intro hobj hempty
    cases resp with
    | obj kvs =>
      unfold traffic_total_from_series
      cases hser : jget (JVal.obj kvs) key with
      | arr its =>
        have he := hempty its hser
        simp only [he, if_true]
      | null => rfl
      | bool b => rfl
      | int n => rfl
      | str s => rfl
      | obj o => rfl
    | null => simp [isObj] at hobj
    | bool b => simp [isObj] at hobj
    | int n => simp [isObj] at hobj
    | str s => simp [isObj] at hobj
    | arr xs => simp [isObj] at hobj

/-- Example traffic response with a zero reported count and a two-entry
series. -/
def exTrafficResp : JVal :=
  .obj [("count", .int 0), ("uniques", .int 2),
        ("views", .arr [.obj [("count", .int 3)], .obj [("count", .int 4)]])]

/-- The series of exTrafficResp. -/
def exTrafficSeries : List JVal :=
  [.obj [("count", .int 3)], .obj [("count", .int 4)]]

/-- Witness for C1 at a concrete response: the reported count 0 is below
the series sum 7, so the derived total is 7. -/
theorem c1_witness :
    traffic_total_from_series exTrafficResp "views" = trafficSeriesSum exTrafficSeries :=
  ((c1_traffic_derived_total exTrafficResp "views").1 exTrafficSeries rfl rfl rfl).2
    (by norm_num [trafficSeriesSum, clamp_int, pyToInt, jget, lookupKV, exTrafficSeries,
      exTrafficResp, isObj, List.foldl])

/-- The part scan returns nothing exactly when no part marked rel last has
a parsable page parameter. -/
theorem scanParts_none_iff (parts : List String) :
    scanParts parts = none ↔
      ∀ p ∈ parts, hasRelLast p = true → pagePar p = none := by
  induction parts with
  | nil => simp [scanParts]
  | cons q rest ih =>
    unfold scanParts
    cases hrl : hasRelLast q with
    | false =>
      simp only [Bool.false_eq_true, if_false, ih, List.mem_cons]
      constructor
      · intro h p hp
        rcases hp with hq | hmem
        · subst hq; rw [hrl]; intro hc; exact absurd hc (by simp)
        · exact h p hmem
      · intro h p hp
        exact h p (Or.inr hp)
    | true =>
      cases hpp : pagePar q with
      | some n =>
        simp only [if_true]
        constructor
        · intro h; exact absurd h (by simp)
        · intro h
          have := h q (List.mem_cons_self q rest) hrl
          rw [hpp] at this
          exact absurd this (by simp)
      | none =>
        simp only [if_true, ih]
        constructor
        · intro h p hp
          rcases List.mem_cons.mp hp with hq | hmem
          · subst hq; intro _; exact hpp
          · exact h p hmem
        · intro h p hp
          exact h p (List.mem_cons_of_mem q hp)

/-- The part scan returns the page of the first part marked rel last that
carries a parsable page parameter. -/
theorem scanParts_find (parts : List String) (p : String)
    (h : parts.find? (fun q => hasRelLast q && (pagePar q).isSome) = some p) :
    scanParts parts = pagePar p := by
  induction parts with
  | nil => simp at h
  | cons q rest ih =>
    cases hpred : (hasRelLast q && (pagePar q).isSome) with
    | true =>
      simp only [List.find?, hpred, cond_true] at h
      injection h with h
      subst h
      rw [Bool.and_eq_true] at hpred
      unfold scanParts
      rw [hpred.1]
      cases hpp : pagePar q with
      | some n => simp
      | none =>
        have hps := hpred.2
        rw [hpp] at hps
        simp at hps
    | false =>
      simp only [List.find?, hpred, cond_false] at h
      have := ih h
      unfold scanParts
      cases hrl : hasRelLast q with
      | false => simpa using this
      | true =>
        have hps : (pagePar q).isSome = false := by
          cases hp2 : (pagePar q).isSome with
          | false => rfl
          | true => rw [hrl, hp2] at hpred; simp at hpred
        cases hpp : pagePar q with
        | some n => rw [hpp] at hps; simp at hps
        | none => simpa using this

/-- C5: when the comma-separated parts of a pagination-link header contain
an entry marked rel last whose page parameter parses as N, the helper
returns the N of the first such entry; when no part qualifies (including
the empty header and rel last entries without a parsable page), it returns
none rather than failing. -/
theorem c5_parse_link_last_page (h : String) :
    (parse_link_last_page h = none ↔
      ∀ p ∈ linkParts h, hasRelLast p = true → pagePar p = none)
    ∧ ∀ p, (linkParts h).find? (fun q => hasRelLast q && (pagePar q).isSome) = some p →
        parse_link_last_page h = pagePar p := by
  unfold parse_link_last_page
  by_cases h0 : h = ""
  · subst h0
    have hlp : linkParts "" = [] := rfl
    rw [hlp]
    simp
  · rw [if_neg h0]
    exact ⟨scanParts_none_iff (linkParts h), fun p hp => scanParts_find (linkParts h) p hp⟩

/-- Example pagination-link header with next and last entries. -/
def exLinkHeader : String :=
  "<https://api.github.com/repositories/1/commits?per_page=1&page=2>; rel=\"next\", "
    ++ "<https://api.github.com/repositories/1/commits?per_page=1&page=747>; rel=\"last\""

/-- Witness for C5 at a concrete header: the rel last entry carries
page 747 and the helper returns exactly 747. -/
theorem c5_witness : parse_link_last_page exLinkHeader = some 747 :=
  ((c5_parse_link_last_page exLinkHeader).2
      "<https://api.github.com/repositories/1/commits?per_page=1&page=747>; rel=\"last\""
      (by rfl)).trans (by rfl)

/-- Shape of the page trace of the releases loop: one contiguous run of
page numbers starting at the initial page, of length at most rem + 1, where
every page that was followed by a further request answered with a full list
of at least 100 entries. -/
theorem relLoop_pages (api : Api) (u : String) :
    ∀ rem page,
      (relLoop api u page rem).2 ≠ []
        ∧ (relLoop api u page rem).2
            = List.range' page (relLoop api u page rem).2.length
        ∧ (relLoop api u page rem).2.length ≤ rem + 1
        ∧ ∀ j, j + 1 < (relLoop api u page rem).2.length →
            ∃ xs, get_json api (relPageUrl u (page + j)) = .ok (JVal.arr xs)
              ∧ 100 ≤ xs.length := by
  intro rem
  induction rem with
  | zero =>
    intro page
    unfold relLoop
    cases hg : get_json api (relPageUrl u page) with
    | error e => simp [List.range']
    | ok chunk =>
      cases chunk with
      | arr xs =>
        dsimp only
        split_ifs with h1 h2
        · simp [List.range']
        · simp [List.range']
        · simp [List.range']
      | null => simp [List.range']
      | bool b => simp [List.range']
      | int n => simp [List.range']
      | str s => simp [List.range']
      | obj kvs => simp [List.range']
  | succ rem1 ih =>
    intro page
    unfold relLoop
    cases hg : get_json api (relPageUrl u page) with
    | error e => simp [List.range']
    | ok chunk =>
      cases chunk with
      | arr xs =>
        dsimp only
        split_ifs with h1 h2
        · simp [List.range']
        · simp [List.range']
        · obtain ⟨ihne, ihrange, ihlen, ihfull⟩ := ih (page + 1)
          have hfull : 100 ≤ xs.length := by omega
          cases hnext : (relLoop api u (page + 1) rem1).1 with
          | error e =>
            dsimp only
            refine ⟨by simp, ?_, ?_, ?_⟩
            · simp only [List.length_cons]
              rw [List.range'_succ]
              rw [← ihrange]
            · simp only [List.length_cons]; omega
            · intro j hj
              cases j with
              | zero => exact ⟨xs, by simpa using hg, hfull⟩
              | succ j1 =>
                have := ihfull j1 (by simpa using hj)
                have harith : page + 1 + j1 = page + (j1 + 1) := by omega
                rw [harith] at this
                exact this
          | ok rest =>
            dsimp only
            refine ⟨by simp, ?_, ?_, ?_⟩
            · simp only [List.length_cons]
              rw [List.range'_succ]
              rw [← ihrange]
            · simp only [List.length_cons]; omega
            · intro j hj
              cases j with
              | zero => exact ⟨xs, by simpa using hg, hfull⟩
              | succ j1 =>
                have := ihfull j1 (by simpa using hj)
                have harith : page + 1 + j1 = page + (j1 + 1) := by omega
                rw [harith] at this
                exact this
      | null => simp [List.range']
      | bool b => simp [List.range']
      | int n => simp [List.range']
      | str s => simp [List.range']
      | obj kvs => simp [List.range']

/-- C8: the releases paging loop of the repo-fetch block terminates,
requesting pages in increasing order starting at page 1 (each URL carrying
per_page=100), never issuing more than 20 page requests, and only
continuing past a page that answered with a list of at least 100 entries. -/
theorem c8_releases_paging (api : Api) (u : String) :
    (relLoop api u 1 19).2 ≠ []
      ∧ (relLoop api u 1 19).2 = List.range' 1 (relLoop api u 1 19).2.length
      ∧ (relLoop api u 1 19).2.length ≤ 20
      ∧ ∀ j, j + 1 < (relLoop api u 1 19).2.length →
          ∃ xs, get_json api (relPageUrl u (1 + j)) = .ok (JVal.arr xs)
            ∧ 100 ≤ xs.length := by
  obtain ⟨h1, h2, h3, h4⟩ := relLoop_pages api u 19 1
  exact ⟨h1, h2, by omega, h4⟩

/-- Spec-side classification of one input element of the repo list: parse
failure gives an error under the raw string, a failed fetch gives an error
under the parsed slug, a successful fetch gives the record. -/
def slugOutcome (api : Api) (token : String) (r : JVal) :
    Sum RepoRecord (String × String) :=
  match parse_repo_slug (jstr r) with
  | none => .inr (jstr r, "invalid_repo_slug")
  | some (owner, name) =>
    match fetchOne api token owner name with
    | .ok rec => .inl rec
    | .error e => .inr (owner ++ "/" ++ name, safe_strS e 4000)

/-- C2: every element of the input repos list yields exactly one entry in
the fetch output, a success record or an error entry, never both and never
neither: the two output lists are the filtered per-element outcomes and
their lengths sum to the input length; a parse failure is recorded under
the raw string, a fetch failure under the parsed slug, and every other
element produces its one success record. -/
theorem c2_one_entry_per_element (api : Api) (token : String) (L : List JVal) :
    (fetchLoop api token L).1.length + (fetchLoop api token L).2.length = L.length
      ∧ (fetchLoop api token L).1
          = L.filterMap (fun r => (slugOutcome api token r).getLeft?)
      ∧ (fetchLoop api token L).2
          = L.filterMap (fun r => (slugOutcome api token r).getRight?)
      ∧ (∀ r, parse_repo_slug (jstr r) = none →
          slugOutcome api token r = .inr (jstr r, "invalid_repo_slug"))
      ∧ (∀ r owner name e, parse_repo_slug (jstr r) = some (owner, name) →
          fetchOne api token owner name = .error e →
          slugOutcome api token r = .inr (owner ++ "/" ++ name, safe_strS e 4000))
      ∧ (∀ r owner name rec, parse_repo_slug (jstr r) = some (owner, name) →
          fetchOne api token owner name = .ok rec →
          slugOutcome api token r = .inl rec) := by
  refine ⟨?_, ?_, ?_, ?_, ?_, ?_⟩
  · induction L with
    | nil => rfl
    | cons r rest ih =>
      unfold fetchLoop
      cases hp : parse_repo_slug (jstr r) with
      | none =>
        dsimp only
        simp only [List.length_cons]
        omega
      | some pr =>
        obtain ⟨owner, name⟩ := pr
        dsimp only
        cases hf : fetchOne api token owner name with
        | ok rec =>
          dsimp only
          simp only [List.length_cons]
          omega
        | error e =>
          dsimp only
          simp only [List.length_cons]
          omega
  · induction L with
    | nil => rfl
    | cons r rest ih =>
      unfold fetchLoop
      simp only [List.filterMap_cons]
      cases hp : parse_repo_slug (jstr r) with
      | none =>
        dsimp only
        rw [show slugOutcome api token r = .inr (jstr r, "invalid_repo_slug") by
          unfold slugOutcome; rw [hp]]
        simpa using ih
      | some pr =>
        obtain ⟨owner, name⟩ := pr
        dsimp only
        cases hf : fetchOne api token owner name with
        | ok rec =>
          rw [show slugOutcome api token r = .inl rec by
            unfold slugOutcome; rw [hp]; dsimp only; rw [hf]]
          simpa using ih
        | error e =>
          rw [show slugOutcome api token r = .inr (owner ++ "/" ++ name, safe_strS e 4000) by
            unfold slugOutcome; rw [hp]; dsimp only; rw [hf]]
          simpa using ih
  · induction L with
    | nil => rfl
    | cons r rest ih =>
      unfold fetchLoop
      simp only [List.filterMap_cons]
      cases hp : parse_repo_slug (jstr r) with
      | none =>
        dsimp only
        rw [show slugOutcome api token r = .inr (jstr r, "invalid_repo_slug") by
          unfold slugOutcome; rw [hp]]
        simpa using ih
      | some pr =>
        obtain ⟨owner, name⟩ := pr
        dsimp only
        cases hf : fetchOne api token owner name with
        | ok rec =>
          rw [show slugOutcome api token r = .inl rec by
            unfold slugOutcome; rw [hp]; dsimp only; rw [hf]]
          simpa using ih
        | error e =>
          rw [show slugOutcome api token r = .inr (owner ++ "/" ++ name, safe_strS e 4000) by
            unfold slugOutcome; rw [hp]; dsimp only; rw [hf]]
          simpa using ih
  · intro r hp
    unfold slugOutcome
    rw [hp]
  · intro r owner name e hp hf
    unfold slugOutcome
    rw [hp]
    dsimp only
    rw [hf]
  · intro r owner name rec hp hf
    unfold slugOutcome
    rw [hp]
    dsimp only
    rw [hf]


/-- Spec-side field-wise totals over a repo list: the dict records counted,
each numeric metric summed through the clamp, and the views and clones
figures summed from each record's traffic sub-dicts. -/
def specTotals (rs : List JVal) : Totals :=
  let objs := rs.filter fun r => isObj r
  { repos := (objs.length : Int)
    stars := (objs.map fun r => clamp_int (jget r "stars") 0 2000000000 0).sum
    forks := (objs.map fun r => clamp_int (jget r "forks") 0 2000000000 0).sum
    watchers := (objs.map fun r => clamp_int (jget r "watchers") 0 2000000000 0).sum
    open_issues := (objs.map fun r => clamp_int (jget r "open_issues") 0 2000000000 0).sum
    release_asset_downloads_total :=
      (objs.map fun r =>
        clamp_int (jget r "release_asset_downloads_total") 0 2000000000 0).sum
    views_14d_total :=
      (objs.map fun r => clamp_int (jget (viewsDictOf r) "count") 0 2000000000 0).sum
    views_14d_unique :=
      (objs.map fun r => clamp_int (jget (viewsDictOf r) "uniques") 0 2000000000 0).sum
    clones_14d_total :=
      (objs.map fun r => clamp_int (jget (clonesDictOf r) "count") 0 2000000000 0).sum
    clones_14d_unique :=
      (objs.map fun r => clamp_int (jget (clonesDictOf r) "uniques") 0 2000000000 0).sum
    commits_total :=
      (objs.map fun r => clamp_int (jget r "commits_total") 0 2000000000 0).sum }

/-- Componentwise characterisation of the aggregation fold: folding from any
accumulator adds the spec-side field sums. -/
theorem foldl_totalsStep (rs : List JVal) : forall t : Totals,
    rs.foldl totalsStep t =
      { repos := t.repos + (specTotals rs).repos
        stars := t.stars + (specTotals rs).stars
        forks := t.forks + (specTotals rs).forks
        watchers := t.watchers + (specTotals rs).watchers
        open_issues := t.open_issues + (specTotals rs).open_issues
        release_asset_downloads_total :=
          t.release_asset_downloads_total + (specTotals rs).release_asset_downloads_total
        views_14d_total := t.views_14d_total + (specTotals rs).views_14d_total
        views_14d_unique := t.views_14d_unique + (specTotals rs).views_14d_unique
        clones_14d_total := t.clones_14d_total + (specTotals rs).clones_14d_total
        clones_14d_unique := t.clones_14d_unique + (specTotals rs).clones_14d_unique
        commits_total := t.commits_total + (specTotals rs).commits_total } := by
  induction rs with
  | nil =>
    intro t
    cases t
    simp [specTotals]
  | cons r rest ih =>
    intro t
    simp only [List.foldl_cons]
    rw [ih (totalsStep t r)]
    cases r with
    | obj kvs =>
      simp only [totalsStep, specTotals, List.filter_cons, isObj, if_true, List.map_cons,
        List.sum_cons, List.length_cons, Totals.mk.injEq]
      refine ⟨?_, ?_, ?_, ?_, ?_, ?_, ?_, ?_, ?_, ?_, ?_⟩ <;> push_cast <;> ring
    | null =>
      simp only [totalsStep, specTotals, List.filter_cons, isObj, Bool.false_eq_true, if_false]
    | bool b =>
      simp only [totalsStep, specTotals, List.filter_cons, isObj, Bool.false_eq_true, if_false]
    | int n =>
      simp only [totalsStep, specTotals, List.filter_cons, isObj, Bool.false_eq_true, if_false]
    | str sx =>
      simp only [totalsStep, specTotals, List.filter_cons, isObj, Bool.false_eq_true, if_false]
    | arr xs =>
      simp only [totalsStep, specTotals, List.filter_cons, isObj, Bool.false_eq_true, if_false]

/-- C3: for a dict payload whose repos entry is a list, the aggregate block
attaches a totals object counting exactly the dict records and equal,
field by field, to the clamped sums over those records, with the views and
clones figures summed from each record's traffic sub-dicts; over an empty
list every total is zero with a zero repo count. -/
theorem c3_aggregate_totals (p : JVal) (rs : List JVal)
    (hobj : isObj p = true) (hrs : jget p "repos" = JVal.arr rs) :
    aggregateExec p = .ok (jset p "totals" (totalsToJVal (specTotals rs))) := by
  have hval : (if truthy (JVal.arr rs) then JVal.arr rs else JVal.arr []) = JVal.arr rs := by
    cases he : rs.isEmpty with
    | true =>
      have : rs = [] := List.isEmpty_iff.mp he
      subst this
      simp [truthy]
    | false => simp [truthy, he]
  cases p with
  | obj kvs =>
    unfold aggregateExec aggRepos
    simp only [isObj, if_true]
    rw [hrs, hval]
    unfold pyIterList
    dsimp only
    rw [foldl_totalsStep rs initTotals]
    have hinit :
        ({ repos := initTotals.repos + (specTotals rs).repos
           stars := initTotals.stars + (specTotals rs).stars
           forks := initTotals.forks + (specTotals rs).forks
           watchers := initTotals.watchers + (specTotals rs).watchers
           open_issues := initTotals.open_issues + (specTotals rs).open_issues
           release_asset_downloads_total :=
             initTotals.release_asset_downloads_total
               + (specTotals rs).release_asset_downloads_total
           views_14d_total := initTotals.views_14d_total + (specTotals rs).views_14d_total
           views_14d_unique := initTotals.views_14d_unique + (specTotals rs).views_14d_unique
           clones_14d_total := initTotals.clones_14d_total + (specTotals rs).clones_14d_total
           clones_14d_unique :=
             initTotals.clones_14d_unique + (specTotals rs).clones_14d_unique
           commits_total := initTotals.commits_total + (specTotals rs).commits_total }
          : Totals) = specTotals rs := by
      simp [initTotals]
    rw [hinit]
  | null => simp [isObj] at hobj
  | bool b => simp [isObj] at hobj
  | int n => simp [isObj] at hobj
  | str sx => simp [isObj] at hobj
  | arr xs => simp [isObj] at hobj

/-- Example aggregate payload: one full record, one partially numeric
record and one non-dict entry. -/
def exAggPayload : JVal :=
  .obj [("generated_at", .int 5),
        ("repos", .arr
          [.obj [("stars", .int 4), ("forks", .int 1), ("commits_total", .str "9"),
                 ("traffic", .obj [("views", .obj [("count", .int 7), ("uniques", .int 2)])])],
           .obj [("stars", .int 3000000000)],
           .str "not a record"]),
        ("errors", .arr [])]

/-- The repo list of exAggPayload. -/
def exAggRepos : List JVal :=
  [.obj [("stars", .int 4), ("forks", .int 1), ("commits_total", .str "9"),
         ("traffic", .obj [("views", .obj [("count", .int 7), ("uniques", .int 2)])])],
   .obj [("stars", .int 3000000000)],
   .str "not a record"]

/-- Witness for C3 at a concrete payload: two dict records (one overflowing
clamp), one skipped string entry. -/
theorem c3_witness :
    isObj exAggPayload = true
      ∧ jget exAggPayload "repos" = JVal.arr exAggRepos
      ∧ aggregateExec exAggPayload
          = .ok (jset exAggPayload "totals" (totalsToJVal (specTotals exAggRepos))) :=
  ⟨rfl, rfl, c3_aggregate_totals exAggPayload exAggRepos rfl rfl⟩



/-- Setting one key leaves lookups of other keys unchanged. -/
theorem lookupKV_setKV_ne (kvs : List (String × JVal)) (k k2 : String) (v : JVal)
    (h : k2 ≠ k) : lookupKV (setKV kvs k v) k2 = lookupKV kvs k2 := by
  induction kvs with
  | nil => simp [setKV, lookupKV, Ne.symm h]
  | cons kv rest ih =>
    obtain ⟨k1, v1⟩ := kv
    by_cases hk : k1 = k
    · subst hk
      simp [setKV, lookupKV, Ne.symm h]
    · simp [setKV, lookupKV, hk, ih]

/-- Lookup of a key just set yields the new value. -/
theorem lookupKV_setKV_self (kvs : List (String × JVal)) (k : String) (v : JVal) :
    lookupKV (setKV kvs k v) k = some v := by
  induction kvs with
  | nil => simp [setKV, lookupKV]
  | cons kv rest ih =>
    obtain ⟨k1, v1⟩ := kv
    by_cases hk : k1 = k
    · subst hk
      simp [setKV, lookupKV]
    · simp [setKV, lookupKV, hk, ih]

/-- Setting the same key twice keeps only the second value. -/
theorem setKV_setKV (kvs : List (String × JVal)) (k : String) (v w : JVal) :
    setKV (setKV kvs k v) k w = setKV kvs k w := by
  induction kvs with
  | nil => simp [setKV]
  | cons kv rest ih =>
    obtain ⟨k1, v1⟩ := kv
    by_cases hk : k1 = k
    · subst hk
      simp [setKV]
    · simp [setKV, hk, ih]

/-- C9: the aggregate block is idempotent: whenever it produces an output,
running it again on that output recomputes identical totals from the
unchanged repos list and overwrites the totals key with the same value,
returning the output unchanged. -/
theorem c9_aggregate_idempotent (p q : JVal) (h : aggregateExec p = .ok q) :
    aggregateExec q = .ok q := by
  obtain ⟨kvs1, hp1⟩ : ∃ kvs1, (if isObj p then p else JVal.obj []) = JVal.obj kvs1 := by
    cases p <;> simp [isObj]
  unfold aggregateExec at h
  rw [hp1] at h
  cases hit : pyIterList (aggRepos p) with
  | error e =>
    rw [hit] at h
    exact absurd h (by simp)
  | ok rs =>
    rw [hit] at h
    dsimp only at h
    injection h with h
    have hq : q = JVal.obj (setKV kvs1 "totals"
        (totalsToJVal (List.foldl totalsStep initTotals rs))) := by
      rw [← h]
      rfl
    have hjq : jget (JVal.obj (setKV kvs1 "totals"
          (totalsToJVal (List.foldl totalsStep initTotals rs)))) "repos"
        = jget (JVal.obj kvs1) "repos" := by
      simp only [jget]
      rw [lookupKV_setKV_ne kvs1 "totals" "repos" _ (by decide)]
    have haggq : aggRepos (JVal.obj (setKV kvs1 "totals"
          (totalsToJVal (List.foldl totalsStep initTotals rs)))) = aggRepos p := by
      unfold aggRepos
      rw [hp1]
      rw [show (if isObj (JVal.obj (setKV kvs1 "totals"
              (totalsToJVal (List.foldl totalsStep initTotals rs)))) = true
            then JVal.obj (setKV kvs1 "totals"
              (totalsToJVal (List.foldl totalsStep initTotals rs)))
            else JVal.obj [])
          = JVal.obj (setKV kvs1 "totals"
              (totalsToJVal (List.foldl totalsStep initTotals rs))) from if_pos rfl]
      dsimp only
      rw [hjq]
    rw [hq]
    unfold aggregateExec
    rw [haggq, hit]
    dsimp only
    rw [show (if isObj (JVal.obj (setKV kvs1 "totals"
            (totalsToJVal (List.foldl totalsStep initTotals rs)))) = true
          then JVal.obj (setKV kvs1 "totals"
            (totalsToJVal (List.foldl totalsStep initTotals rs)))
          else JVal.obj [])
        = JVal.obj (setKV kvs1 "totals"
            (totalsToJVal (List.foldl totalsStep initTotals rs))) from if_pos rfl]
    simp only [jset]
    rw [setKV_setKV]

/-- Witness for C9: applying the block to the output it produced on the
empty payload returns that output unchanged. -/
theorem c9_witness :
    aggregateExec (JVal.obj [("totals", totalsToJVal initTotals)])
      = .ok (JVal.obj [("totals", totalsToJVal initTotals)]) :=
  c9_aggregate_idempotent (JVal.obj [])
    (JVal.obj [("totals", totalsToJVal initTotals)]) rfl

/-- Keys of a dict value in order. -/
def jkeys : JVal → List String
  | .obj kvs => kvs.map fun kv => kv.1
  | _ => []

/-- The eleven totals keys, in source order (blocks.py lines 379-391). -/
def aggKeys : List String :=
  ["repos", "stars", "forks", "watchers", "open_issues",
   "release_asset_downloads_total", "views_14d_total", "views_14d_unique",
   "clones_14d_total", "clones_14d_unique", "commits_total"]

/-- Whether an Except value is a success. -/
def isOkE {A : Type} (e : Except String A) : Bool :=
  match e with
  | .ok _ => true
  | .error _ => false

/-- C10 (amended): whenever the resolved repos value of the payload is
iterable (that is, except when it is a truthy number or boolean, on which
the block raises TypeError), the aggregate block returns normally and its
output carries a totals dict with exactly the eleven documented keys in
order; non-dict payloads are treated as empty and non-dict repo entries are
skipped. -/
theorem c10_aggregate_safety (p : JVal)
    (h : isOkE (pyIterList (aggRepos p)) = true) :
    isOkE (aggregateExec p) = true
      ∧ (aggregateExec p).map (fun q => jkeys (jget q "totals")) = .ok aggKeys := by
  obtain ⟨kvs1, hp1⟩ : ∃ kvs1, (if isObj p then p else JVal.obj []) = JVal.obj kvs1 := by
    cases p <;> simp [isObj]
  unfold aggregateExec
  rw [hp1]
  cases hit : pyIterList (aggRepos p) with
  | error e =>
    rw [hit] at h
    exact absurd h (by simp [isOkE])
  | ok rs =>
    constructor
    · rfl
    · dsimp only [Except.map]
      unfold jset jget
      dsimp only
      rw [lookupKV_setKV_self]
      rfl

/-- Counterexample for C10 as stated: a payload whose repos value is the
number 1 makes the aggregate block raise TypeError instead of returning. -/
theorem c10_counterexample :
    aggregateExec (JVal.obj [("repos", JVal.int 1)])
      = .error (notIterableMsg (JVal.int 1)) := rfl

/-- Witness for C10 at a concrete payload whose repos value is a string
(iterable, so the block returns normally with the eleven keys). -/
theorem c10_witness :
    isOkE (pyIterList (aggRepos (JVal.obj [("repos", JVal.str "ab")]))) = true
      ∧ isOkE (aggregateExec (JVal.obj [("repos", JVal.str "ab")])) = true
      ∧ (aggregateExec (JVal.obj [("repos", JVal.str "ab")])).map
          (fun q => jkeys (jget q "totals")) = .ok aggKeys :=
  ⟨rfl, (c10_aggregate_safety (JVal.obj [("repos", JVal.str "ab")]) rfl).1,
    (c10_aggregate_safety (JVal.obj [("repos", JVal.str "ab")]) rfl).2⟩



/-- Aggregating a fetch output attaches the folded totals of its rendered
records. -/
theorem aggregate_fetchOut (t : Int) (recs : List RepoRecord)
    (errs : List (String × String)) :
    aggregateExec (fetchOutToJVal ⟨t, recs, errs⟩)
      = .ok (jset (fetchOutToJVal ⟨t, recs, errs⟩) "totals"
          (totalsToJVal (List.foldl totalsStep initTotals (recs.map recordToJVal)))) := by
  have hval : (if truthy (JVal.arr (recs.map recordToJVal)) = true
      then JVal.arr (recs.map recordToJVal) else JVal.arr [])
      = JVal.arr (recs.map recordToJVal) := by
    cases he : (recs.map recordToJVal).isEmpty with
    | true =>
      have h0 : recs.map recordToJVal = [] := List.isEmpty_iff.mp he
      rw [h0]
      simp [truthy]
    | false => simp [truthy, he]
  have hrep : aggRepos (fetchOutToJVal ⟨t, recs, errs⟩)
      = (if truthy (JVal.arr (recs.map recordToJVal)) = true
        then JVal.arr (recs.map recordToJVal) else JVal.arr []) := rfl
  unfold aggregateExec
  rw [hrep.trans hval]
  rfl

/-- C7: on a fixed mocked API and fixed payload, running fetch then
aggregate at two different timestamps yields outputs identical in their
repos, errors and totals fields (only generated_at can differ); failing
runs fail identically. -/
theorem c7_pipeline_deterministic (api : Api) (token : String) (p : JVal) (t1 t2 : Int) :
    (pipelineRun api token p t1).map
        (fun q => (jget q "repos", jget q "errors", jget q "totals"))
      = (pipelineRun api token p t2).map
        (fun q => (jget q "repos", jget q "errors", jget q "totals")) := by
  unfold pipelineRun fetchExec
  cases hit : pyIterList (fetchReposIn p) with
  | error e => rfl
  | ok rs =>
    dsimp only
    rw [aggregate_fetchOut t1 (fetchLoop api token rs).1 (fetchLoop api token rs).2,
      aggregate_fetchOut t2 (fetchLoop api token rs).1 (fetchLoop api token rs).2]
    rfl



/-- Generic nonnegativity of the clamped-sum folds over dict items. -/
theorem foldl_clampAdd_nonneg (key : String) (xs : List JVal) :
    forall a : Int, 0 ≤ a →
      0 ≤ xs.foldl
        (fun acc x => if isObj x then acc + clamp_int (jget x key) 0 2000000000 0 else acc)
        a := by
  induction xs with
  | nil => intro a ha; simpa using ha
  | cons x rest ih =>
    intro a ha
    simp only [List.foldl_cons]
    apply ih
    split_ifs
    · have := clamp_int_bounds (jget x key) 0 2000000000 0 le_rfl (by norm_num)
      omega
    · exact ha

/-- The per-release download sum is nonnegative. -/
theorem assetsDownloadSum_nonneg (assets : List JVal) : 0 ≤ assetsDownloadSum assets :=
  foldl_clampAdd_nonneg "download_count" assets 0 le_rfl

/-- Both numeric fields of a release row are nonnegative when the sum is. -/
theorem relRow_nonneg (rel : JVal) (rs : Int) (h : 0 ≤ rs) :
    0 ≤ (relRow rel rs).assets_count ∧ 0 ≤ (relRow rel rs).assets_downloads := by
  constructor
  · unfold relRow
    dsimp only
    cases assetsOf rel with
    | arr xs => exact Int.natCast_nonneg xs.length
    | null => exact le_rfl
    | bool b => exact le_rfl
    | int n => exact le_rfl
    | str sx => exact le_rfl
    | obj kvs => exact le_rfl
  · exact h

/-- A successful release summarisation yields a nonnegative grand total and
rows whose numeric fields are nonnegative. -/
theorem relSummaries_nonneg : forall (rels : List JVal) (tot : Int)
    (rows : List ReleaseSummary),
    relSummaries rels = .ok (tot, rows) →
    0 ≤ tot ∧ rows.all
      (fun e => decide (0 ≤ e.assets_count) && decide (0 ≤ e.assets_downloads)) = true := by
  intro rels
  induction rels with
  | nil =>
    intro tot rows h
    unfold relSummaries at h
    injection h with h
    injection h with h1 h2
    constructor
    · omega
    · rw [← h2]
      rfl
  | cons rel rest ih =>
    intro tot rows h
    unfold relSummaries at h
    cases hpi : pyIterList (assetsOf rel) with
    | error e =>
      rw [hpi] at h
      exact absurd h (by simp)
    | ok assets =>
      rw [hpi] at h
      dsimp only at h
      cases hrs : relSummaries rest with
      | error e =>
        rw [hrs] at h
        exact absurd h (by simp)
      | ok pr =>
        obtain ⟨tot1, rows1⟩ := pr
        rw [hrs] at h
        dsimp only at h
        injection h with h
        injection h with h1 h2
        obtain ⟨ih1, ih2⟩ := ih tot1 rows1 hrs
        have hsum := assetsDownloadSum_nonneg assets
        have hrow := relRow_nonneg rel (assetsDownloadSum assets) hsum
        constructor
        · omega
        · rw [← h2]
          rw [List.all_cons]
          rw [Bool.and_eq_true]
          refine ⟨?_, ih2⟩
          rw [Bool.and_eq_true]
          exact ⟨decide_eq_true hrow.1, decide_eq_true hrow.2⟩

/-- Each page value emitted by the page regex is nonnegative. -/
theorem pagePar_nonneg (p : String) (n : Int) (h : pagePar p = some n) : 0 ≤ n := by
  unfold pagePar at h
  cases hf : findPageDigits p.toList with
  | none =>
    rw [hf] at h
    exact absurd h (by simp)
  | some ds =>
    rw [hf] at h
    rw [show (some ds).map (fun d => (digitsToNat d : Int)) = some (digitsToNat ds : Int)
      from rfl] at h
    injection h with h
    rw [← h]
    exact Int.natCast_nonneg (digitsToNat ds)

/-- The part scan only returns nonnegative pages. -/
theorem scanParts_nonneg : forall (parts : List String) (n : Int),
    scanParts parts = some n → 0 ≤ n := by
  intro parts
  induction parts with
  | nil => intro n h; simp [scanParts] at h
  | cons p rest ih =>
    intro n h
    unfold scanParts at h
    by_cases hrl : hasRelLast p = true
    · rw [if_pos hrl] at h
      cases hpp : pagePar p with
      | some m =>
        rw [hpp] at h
        injection h with h
        rw [← h]
        exact pagePar_nonneg p m hpp
      | none =>
        rw [hpp] at h
        exact ih n h
    · rw [if_neg hrl] at h
      exact ih n h

/-- The pagination helper only returns nonnegative pages. -/
theorem parse_link_last_page_nonneg (link : String) (n : Int)
    (h : parse_link_last_page link = some n) : 0 ≤ n := by
  unfold parse_link_last_page at h
  by_cases h0 : link = ""
  · rw [if_pos h0] at h
    exact absurd h (by simp)
  · rw [if_neg h0] at h
    exact scanParts_nonneg (linkParts link) n h

/-- The absorbed commits total is nonnegative. -/
theorem commitsOf_nonneg (api : Api) (repo_url : String) :
    0 ≤ (commitsOf api repo_url).1 := by
  unfold commitsOf
  cases hg : get_json_with_headers api (repo_url ++ "/commits?per_page=1") with
  | error e => exact le_rfl
  | ok pr =>
    obtain ⟨cj, headers⟩ := pr
    dsimp only
    cases cj with
    | arr xs =>
      dsimp only
      cases hp : parse_link_last_page
          (if ((hdrGet headers "Link").getD "") ≠ ""
            then (hdrGet headers "Link").getD ""
            else (hdrGet headers "link").getD "") with
      | some lp => exact parse_link_last_page_nonneg _ lp hp
      | none => exact Int.natCast_nonneg xs.length
    | null => exact le_rfl
    | bool b => exact le_rfl
    | int n => exact le_rfl
    | str sx => exact le_rfl
    | obj kvs => exact le_rfl



/-- C4 (amended): every numeric field of an appended record is
nonnegative, and the fields clamped directly from single upstream values
(stars, forks, watchers, open issues, size) also respect the upper clamp
bound 2000000000; the derived fields (commits total, per-release asset
counts and download sums, the grand download total, and the views and
clones totals) are not clamped above and can exceed the bound. -/
theorem c4_numeric_field_bounds (api : Api) (token owner name : String)
    (rec : RepoRecord) (h : fetchOne api token owner name = .ok rec) :
    0 ≤ rec.commits_total
      ∧ (0 ≤ rec.stars ∧ rec.stars ≤ 2000000000)
      ∧ (0 ≤ rec.forks ∧ rec.forks ≤ 2000000000)
      ∧ (0 ≤ rec.watchers ∧ rec.watchers ≤ 2000000000)
      ∧ (0 ≤ rec.open_issues ∧ rec.open_issues ≤ 2000000000)
      ∧ (0 ≤ rec.size_kb ∧ rec.size_kb ≤ 2000000000)
      ∧ 0 ≤ rec.release_asset_downloads_total
      ∧ 0 ≤ rec.views_14d_total
      ∧ 0 ≤ rec.clones_14d_total
      ∧ rec.releases.all
          (fun e => decide (0 ≤ e.assets_count) && decide (0 ≤ e.assets_downloads))
          = true := by
  unfold fetchOne at h
  dsimp only at h
  cases hmeta : get_json api (repoUrlOf owner name) with
  | error e =>
    rw [hmeta] at h
    exact absurd h (by simp)
  | ok repo =>
    rw [hmeta] at h
    dsimp only at h
    cases hrel : (relLoop api (repoUrlOf owner name) 1 19).1 with
    | error e =>
      rw [hrel] at h
      exact absurd h (by simp)
    | ok rels =>
      rw [hrel] at h
      dsimp only at h
      cases hsum : relSummaries rels with
      | error e =>
        rw [hsum] at h
        exact absurd h (by simp)
      | ok pr =>
        obtain ⟨tot, rows⟩ := pr
        rw [hsum] at h
        dsimp only at h
        cases repo with
        | obj kvs =>
          dsimp only at h
          injection h with h
          rw [← h]
          dsimp only
          have hclamp := fun key =>
            clamp_int_bounds (jget (JVal.obj kvs) key) 0 2000000000 0 le_rfl (by norm_num)
          obtain ⟨hrs1, hrs2⟩ := relSummaries_nonneg rels tot rows hsum
          refine ⟨commitsOf_nonneg api (repoUrlOf owner name),
            hclamp "stargazers_count", hclamp "forks_count",
            hclamp "subscribers_count", hclamp "open_issues_count", hclamp "size",
            hrs1, ?_, ?_, hrs2⟩
          · split_ifs <;>
              first
                | exact traffic_total_nonneg _ "views"
                | exact le_rfl
          · split_ifs <;>
              first
                | exact traffic_total_nonneg _ "clones"
                | exact le_rfl
        | null => exact absurd h (by simp)
        | bool b => exact absurd h (by simp)
        | int n => exact absurd h (by simp)
        | str sx => exact absurd h (by simp)
        | arr xs => exact absurd h (by simp)

/-- Mock API for the C4 counterexample: the commits response carries a Link
header whose last-page number is 2000000001; everything else is minimal. -/
def apiC4 : Api :=
  Api.mk fun url =>
    if url = "https://api.github.com/repos/o/n/commits?per_page=1" then
      .ok (.arr [],
        [("Link",
          "<https://api.github.com/repos/o/n/commits?per_page=1&page=2000000001>; rel=\"last\"")])
    else if url = "https://api.github.com/repos/o/n/releases?per_page=100&page=1" then
      .ok (.arr [], [])
    else .ok (.obj [], [])

/-- Counterexample for C4 as stated: with an upstream last-page header of
2000000001 the appended record carries commits_total = 2000000001, outside
the claimed [0, 2000000000] range. -/
theorem c4_counterexample :
    (fetchOne apiC4 "" "o" "n").map (fun rec => rec.commits_total)
        = .ok 2000000001
      ∧ ¬ ((2000000001 : Int) ≤ 2000000000) :=
  ⟨rfl, by decide⟩

/-- Mock API for the C4 witness: every sub-call succeeds with an empty
body. -/
def apiC4W : Api :=
  Api.mk fun url =>
    if url = "https://api.github.com/repos/o/n/commits?per_page=1" then .ok (.arr [], [])
    else if url = "https://api.github.com/repos/o/n/releases?per_page=100&page=1" then
      .ok (.arr [], [])
    else .ok (.obj [], [])

/-- The record apiC4W produces. -/
def recC4W : RepoRecord :=
  { repo := "o/n", html_url := "", default_branch := "", pushed_at := ""
    updated_at := "", created_at := "", commits_total := 0, commits_error := ""
    views_14d_total := 0, clones_14d_total := 0, stars := 0, forks := 0
    watchers := 0, open_issues := 0, size_kb := 0, language := ""
    languages := .obj [], releases_count := 0, release_asset_downloads_total := 0
    releases := [], traffic := .obj [], traffic_error := "" }

/-- Witness for the amended C4 at a concrete API and record. -/
theorem c4_witness :
    fetchOne apiC4W "" "o" "n" = .ok recC4W
      ∧ (0 ≤ recC4W.commits_total
        ∧ (0 ≤ recC4W.stars ∧ recC4W.stars ≤ 2000000000)
        ∧ (0 ≤ recC4W.forks ∧ recC4W.forks ≤ 2000000000)
        ∧ (0 ≤ recC4W.watchers ∧ recC4W.watchers ≤ 2000000000)
        ∧ (0 ≤ recC4W.open_issues ∧ recC4W.open_issues ≤ 2000000000)
        ∧ (0 ≤ recC4W.size_kb ∧ recC4W.size_kb ≤ 2000000000)
        ∧ 0 ≤ recC4W.release_asset_downloads_total
        ∧ 0 ≤ recC4W.views_14d_total
        ∧ 0 ≤ recC4W.clones_14d_total
        ∧ recC4W.releases.all
            (fun e => decide (0 ≤ e.assets_count) && decide (0 ≤ e.assets_downloads))
            = true) :=
  ⟨rfl, c4_numeric_field_bounds apiC4W "" "o" "n" recC4W rfl⟩



/-- A string whose character list is non-empty is not the empty string. -/
theorem ne_empty_of_toList_ne_nil (s : String) (h : s.toList ≠ []) : s ≠ "" := by
  intro h0
  rw [h0] at h
  exact h rfl

/-- Appending to the right keeps the character list non-empty. -/
theorem toList_append_ne_nil (s t : String) (h : s.toList ≠ []) :
    (s ++ t).toList ≠ [] := by
  have hd : (s ++ t).toList = s.toList ++ t.toList := by
    simp [String.toList, String.data_append]
  rw [hd]
  intro h0
  exact h (List.append_eq_nil.mp h0).1

/-- Client failure messages are never empty. -/
theorem failMsg_ne_empty (url : String) (f : NetFail) : failMsg url f ≠ "" := by
  cases f with
  | http code body =>
    apply ne_empty_of_toList_ne_nil
    unfold failMsg
    apply toList_append_ne_nil
    apply toList_append_ne_nil
    apply toList_append_ne_nil
    apply toList_append_ne_nil
    apply toList_append_ne_nil
    decide
  | transport m =>
    apply ne_empty_of_toList_ne_nil
    unfold failMsg
    apply toList_append_ne_nil
    apply toList_append_ne_nil
    apply toList_append_ne_nil
    decide

/-- Building a string from a non-empty character list is not empty. -/
theorem stringMk_ne_empty (cs : List Char) (h : cs ≠ []) : String.mk cs ≠ "" := by
  intro h0
  apply h
  have hd := congrArg String.data h0
  simpa using hd

/-- Sanitising a non-empty string with a positive length bound keeps it
non-empty. -/
theorem safe_strS_ne_empty (s : String) (n : Nat) (hs : s ≠ "") (hn : 0 < n) :
    safe_strS s n ≠ "" := by
  have hlist : s.toList ≠ [] := by
    intro h0
    apply hs
    cases s with
    | mk data =>
      simp only [String.toList] at h0
      rw [h0]
  have hmap : (s.toList.map fun c => if c = '\r' || c = '\n' then ' ' else c) ≠ [] := by
    intro h0
    exact hlist (List.map_eq_nil_iff.mp h0)
  unfold safe_strS
  dsimp only
  split_ifs
  · exact stringMk_ne_empty _ hmap
  · apply stringMk_ne_empty
    intro h0
    rcases List.take_eq_nil_iff.mp h0 with h1 | h1
    · omega
    · exact hmap h1

/-- C6 (amended): when the metadata fetch returns a dict and the commits
call fails, the commits failure is absorbed: provided the release paging
and release summarisation also succeed, the block still appends the record
for the slug, with a zero commits total and a non-empty commits_error
warning; the commits failure itself never sends the slug to the error
list. -/
theorem c6_commits_failure_absorbed (api : Api) (token owner name : String)
    (repoKvs : List (String × JVal)) (f : NetFail) (rels : List JVal)
    (tot : Int) (rows : List ReleaseSummary)
    (hmeta : get_json api (repoUrlOf owner name) = .ok (JVal.obj repoKvs))
    (hcom : api.call (repoUrlOf owner name ++ "/commits?per_page=1") = .error f)
    (hrel : (relLoop api (repoUrlOf owner name) 1 19).1 = .ok rels)
    (hsum : relSummaries rels = .ok (tot, rows)) :
    isOkE (fetchOne api token owner name) = true
      ∧ (fetchOne api token owner name).map (fun rec => rec.commits_total) = .ok 0
      ∧ (fetchOne api token owner name).map (fun rec => rec.commits_error != "")
          = .ok true := by
  have hcommits : commitsOf api (repoUrlOf owner name)
      = (0, safe_strS (failMsg (repoUrlOf owner name ++ "/commits?per_page=1") f) 1200) := by
    unfold commitsOf get_json_with_headers
    rw [hcom]
  have hcerr : safe_strS (failMsg (repoUrlOf owner name ++ "/commits?per_page=1") f) 1200
      ≠ "" :=
    safe_strS_ne_empty _ 1200 (failMsg_ne_empty _ f) (by norm_num)
  unfold fetchOne
  dsimp only
  rw [hmeta]
  dsimp only
  rw [hrel]
  dsimp only
  rw [hsum]
  dsimp only
  rw [hcommits]
  dsimp only
  refine ⟨rfl, rfl, ?_⟩
  dsimp only [Except.map]
  exact congrArg Except.ok (bne_iff_ne.mpr hcerr)

/-- Mock API for the C6 counterexample: metadata succeeds, every other
call (including the first releases page) fails. -/
def apiC6 : Api :=
  Api.mk fun url =>
    if url = "https://api.github.com/repos/o/n" then .ok (.obj [], [])
    else .error (.transport "down")

/-- Counterexample for C6 as stated: the metadata fetch succeeds and the
commits call fails, yet no record is appended for the slug — the failing
releases page sends the slug to the error list instead. -/
theorem c6_counterexample :
    isOkE (get_json apiC6 (repoUrlOf "o" "n")) = true
      ∧ apiC6.call (repoUrlOf "o" "n" ++ "/commits?per_page=1")
          = .error (.transport "down")
      ∧ (fetchLoop apiC6 "" [JVal.str "o/n"]).1 = []
      ∧ (fetchLoop apiC6 "" [JVal.str "o/n"]).2
          = [("o/n",
              safe_strS (failMsg
                "https://api.github.com/repos/o/n/releases?per_page=100&page=1"
                (NetFail.transport "down")) 4000)] :=
  ⟨rfl, rfl, rfl, rfl⟩

/-- Mock API for the C6 witness: metadata succeeds with a dict, the commits
call fails, everything else succeeds with an empty list. -/
def apiC6W : Api :=
  Api.mk fun url =>
    if url = "https://api.github.com/repos/o/n" then .ok (.obj [], [])
    else if url = "https://api.github.com/repos/o/n/commits?per_page=1" then
      .error (.transport "boom")
    else .ok (.arr [], [])

/-- Witness for the amended C6 at a concrete API. -/
theorem c6_witness :
    get_json apiC6W (repoUrlOf "o" "n") = .ok (JVal.obj [])
      ∧ apiC6W.call (repoUrlOf "o" "n" ++ "/commits?per_page=1")
          = .error (.transport "boom")
      ∧ (relLoop apiC6W (repoUrlOf "o" "n") 1 19).1 = .ok []
      ∧ relSummaries [] = .ok (0, [])
      ∧ isOkE (fetchOne apiC6W "" "o" "n") = true
      ∧ (fetchOne apiC6W "" "o" "n").map (fun rec => rec.commits_total) = .ok 0
      ∧ (fetchOne apiC6W "" "o" "n").map (fun rec => rec.commits_error != "")
          = .ok true := by
  have h := c6_commits_failure_absorbed apiC6W "" "o" "n" [] (.transport "boom") [] 0 []
    rfl rfl rfl rfl
  exact ⟨rfl, rfl, rfl, rfl, h.1, h.2.1, h.2.2⟩



/-- Concrete input list for the C2 witness: one well-formed slug and one
malformed entry. -/
def cRepoList : List JVal := [JVal.str "o/n", JVal.str "bad"]

/-- Witness for C2 at a concrete API and input list: one success record and
one error entry, summing to the input length, with the malformed entry
recorded under its raw string. -/
theorem c2_witness :
    (fetchLoop apiC6W "" cRepoList).1.length + (fetchLoop apiC6W "" cRepoList).2.length
        = cRepoList.length
      ∧ (fetchLoop apiC6W "" cRepoList).1
          = cRepoList.filterMap (fun r => (slugOutcome apiC6W "" r).getLeft?)
      ∧ slugOutcome apiC6W "" (JVal.str "bad") = .inr ("bad", "invalid_repo_slug") := by
  have h := c2_one_entry_per_element apiC6W "" cRepoList
  exact ⟨h.1, h.2.1, h.2.2.2.1 (JVal.str "bad") rfl⟩

/-- Mock API for the C8 witness: the first releases page is full (100
entries), the second is empty. -/
def apiC8 : Api :=
  Api.mk fun url =>
    if url = "u/releases?per_page=100&page=1" then
      .ok (.arr (List.replicate 100 (.obj [])), [])
    else .ok (.arr [], [])

/-- Witness for C8 at a concrete API: two pages are requested, in order
1, 2, within the 20-request bound, and the continuation past page 1 was
justified by a full page. -/
theorem c8_witness :
    (0 + 1 < (relLoop apiC8 "u" 1 19).2.length)
      ∧ (relLoop apiC8 "u" 1 19).2 = List.range' 1 (relLoop apiC8 "u" 1 19).2.length
      ∧ (relLoop apiC8 "u" 1 19).2.length ≤ 20
      ∧ get_json apiC8 (relPageUrl "u" (1 + 0))
          = .ok (JVal.arr (List.replicate 100 (JVal.obj []))) := by
  have h := c8_releases_paging apiC8 "u"
  exact ⟨by decide, h.2.1, h.2.2.1, rfl⟩


end GHAnalytics
